import Mathlib

/-!
Verification of the `python-unit-tests` repository: shallow embeddings of
the example payloads (weather classifier, divide, prime checker, user
manager, Flask-style API endpoint) and of the fixture/mock framework core
the test suites rely on, together with theorems settling the spec claims.

Numeric Python values are modelled by `ℚ` (exact rationals); Python
exceptions by `Except` with the message string as the error payload;
Python dicts by insertion-ordered association lists.
-/

namespace SimpleFunctions

/-- Embeds `get_weather` from `1-simple-functions-example/main.py`:
`return "Hot" if float(temp) > 20 else "Cold"`.  The numeric temperature
is modelled as a rational. -/
def get_weather (temp : ℚ) : String :=
  if temp > 20 then "Hot" else "Cold"

/-- Embeds `divide` from `1-simple-functions-example/main.py`:
raises `ValueError("Cannot divide by zero")` when `b == 0`, otherwise
returns the exact quotient `a / b`. -/
def divide (a b : ℚ) : Except String ℚ :=
  if b = 0 then Except.error "Cannot divide by zero" else Except.ok (a / b)

end SimpleFunctions

namespace Parametrized

/-- The integer part of the square root: the largest `k` with `k * k ≤ n`,
computed by exhaustive search so that it reduces in the kernel. -/
def intSqrt (n : Nat) : Nat :=
  ((List.range (n + 1)).filter fun k => k * k ≤ n).length - 1

/-- Embeds `is_prime` from `4-parametrized-testing/main.py`:
`n <= 1` gives `False`; otherwise trial division over
`range(2, int(n**0.5) + 1)` (i.e. the integers `2 .. intSqrt n`, since
`int(n**0.5)` is the integer part of the square root, exact on the
inputs considered); returns `False` on the first divisor found,
else `True`. -/
def is_prime (n : Int) : Bool :=
  if n ≤ 1 then false
  else (List.range' 2 (intSqrt n.toNat - 1)).all fun i => ¬ (n % (i : Int) = 0)

end Parametrized

namespace FixturesSetup

/-- Embeds `UserManager` from `2-fixtures-setup-example/main.py`: usernames
and emails stored in memory.  The Python dict is modelled as an
insertion-ordered association list. -/
structure UserManager where
  users : List (String × String)
deriving DecidableEq

/-- Embeds `username in self.users`: dict key membership. -/
def UserManager.containsUser (m : UserManager) (username : String) : Bool :=
  m.users.any fun p => p.1 = username

/-- Embeds `UserManager.add_user`: raises `ValueError("User already exists")`
if the username is present (leaving the state untouched), otherwise stores
the email under the username and returns `True`.  The mutated manager is
returned alongside the result. -/
def UserManager.add_user (m : UserManager) (username email : String) :
    Except String Bool × UserManager :=
  if m.containsUser username then (Except.error "User already exists", m)
  else (Except.ok true, ⟨m.users ++ [(username, email)]⟩)

/-- Embeds `UserManager.__getitem__`: `self.users.get(username, None)`. -/
def UserManager.getItem (m : UserManager) (username : String) : Option String :=
  (m.users.find? fun p => p.1 = username).map Prod.snd

end FixturesSetup

namespace Fixtures

/-- Embeds `DataBase` from `3-fixtures-teardown/db.py`: an in-memory user
database whose dict is an insertion-ordered association list. -/
structure DataBase where
  data : List (Nat × String)
deriving DecidableEq

/-- Embeds `DataBase.add_user`: raises `ValueError("User ID already exists")`
on a duplicate id, otherwise stores the name under the id. -/
def DataBase.add_user (db : DataBase) (user_id : Nat) (name : String) :
    Except String DataBase :=
  if db.data.any fun p => p.1 = user_id then Except.error "User ID already exists"
  else Except.ok ⟨db.data ++ [(user_id, name)]⟩

/-- Lifecycle events of one fixture-backed test invocation, in the order the
resolver emits them. -/
inductive FixtureEvent
| setupRun
| bodyFinished (raised : Bool)
| teardownRun
deriving DecidableEq

/-- A registered fixture: a setup step producing the fixture value and a
teardown step run on the value afterwards (the code after the `yield`). -/
structure FixtureProvider (σ : Type) where
  setup : Unit → σ
  teardown : σ → σ

/-- Modelled from the spec: the Fixture Resolver's per-test lifecycle
(`Unresolved -> Setting Up -> Ready -> Tearing Down -> Done`), which is
pytest itself and is not part of the repository's sources.  The resolver
runs the fixture's setup step, hands the produced value to the test body,
and after the body finishes — normally or by raising — resumes the fixture
at its suspension point, running the teardown step.  The body is a state
transformer on the fixture value that either passes (`none`) or raises
(`some e`); the returned trace lists the lifecycle events in order. -/
def runTestWithFixture {σ ε : Type} (fx : FixtureProvider σ)
    (body : σ → Option ε × σ) : Option ε × σ × List FixtureEvent :=
  let s0 := fx.setup ()
  match body s0 with
  | (none, s1) =>
      (none, fx.teardown s1,
        [FixtureEvent.setupRun, FixtureEvent.bodyFinished false, FixtureEvent.teardownRun])
  | (some e, s1) =>
      (some e, fx.teardown s1,
        [FixtureEvent.setupRun, FixtureEvent.bodyFinished true, FixtureEvent.teardownRun])

/-- Embeds the `db` fixture of `3-fixtures-teardown/test_db.py`:
setup is `database = DataBase()`, teardown is `database.data.clear()`. -/
def dbFixture : FixtureProvider DataBase :=
  ⟨fun _ => ⟨[]⟩, fun _db => ⟨[]⟩⟩

end Fixtures

namespace Mocking

/-- Python argument values recorded by mocks: integers and strings cover
every argument the repository's tests pass to mocks. -/
inductive PyVal
| int (n : Int)
| str (s : String)
deriving DecidableEq

/-- One recorded invocation: positional and named arguments. -/
structure CallRecord where
  args : List PyVal
  kwargs : List (String × PyVal)
deriving DecidableEq

/-- A Call Recorder's state: the ordered history of recorded calls. -/
structure Recorder where
  calls : List CallRecord
deriving DecidableEq

/-- The AssertionMismatch error payload: the expected call and the actual
recorded history. -/
structure AssertionMismatch where
  expected : CallRecord
  actual : List CallRecord
deriving DecidableEq

/-- Modelled from the spec: `assert_called_once_with` of the Call Recorder
(the mock library is pytest-mock/unittest.mock, not part of the repository's
sources): succeeds iff the call history has length exactly one and that
single entry's positional and named arguments equal the expected ones
(structural equality, i.e. deep equality); otherwise fails with an
AssertionMismatch carrying the expected call and the actual history. -/
def assert_called_once_with (r : Recorder) (args : List PyVal)
    (kwargs : List (String × PyVal)) : Except AssertionMismatch Unit :=
  match r.calls with
  | [c] =>
      if c = ⟨args, kwargs⟩ then Except.ok ()
      else Except.error ⟨⟨args, kwargs⟩, r.calls⟩
  | _ => Except.error ⟨⟨args, kwargs⟩, r.calls⟩

/-- A spec-constrained mock: the declared capability set of attribute names,
the attribute values configured so far, and the log of attribute calls. -/
structure SpecMock where
  spec : List String
  configured : List (String × PyVal)
  calls : List (String × List PyVal)
deriving DecidableEq

/-- Modelled from the spec: attribute read on a spec-constrained mock
(`mock(spec=CapabilitySet)` is the mock library's, not in the repository's
sources).  A name outside the capability set fails with UnknownAttribute;
a name inside it yields the configured value, if any. -/
def SpecMock.getAttr (m : SpecMock) (name : String) : Except String (Option PyVal) :=
  if name ∈ m.spec then
    Except.ok ((m.configured.find? fun p => p.1 = name).map Prod.snd)
  else Except.error "UnknownAttribute"

/-- Modelled from the spec: attribute call on a spec-constrained mock.
A name outside the capability set fails with UnknownAttribute; a name inside
it records the call and yields the configured return value, if any. -/
def SpecMock.callAttr (m : SpecMock) (name : String) (args : List PyVal) :
    Except String (Option PyVal × SpecMock) :=
  if name ∈ m.spec then
    Except.ok ((m.configured.find? fun p => p.1 = name).map Prod.snd,
      { m with calls := m.calls ++ [(name, args)] })
  else Except.error "UnknownAttribute"

/-- Modelled from the spec: attribute configuration on a spec-constrained
mock.  A name outside the capability set fails with UnknownAttribute; a name
inside it stores the configured value. -/
def SpecMock.setAttr (m : SpecMock) (name : String) (v : PyVal) :
    Except String SpecMock :=
  if name ∈ m.spec then
    Except.ok { m with configured := m.configured ++ [(name, v)] }
  else Except.error "UnknownAttribute"

/-- The capability set of `APIClient` from `5-mocking/mocking-classes/service.py`:
its single declared method. -/
def apiClientSpec : List String := ["get_user_data"]

/-- A mock built with `spec=APIClient`, as in
`5-mocking/mocking-classes/test_service.py`. -/
def apiClientMock : SpecMock := ⟨apiClientSpec, [], []⟩

end Mocking

namespace MockFunction

/-- The stand-in HTTP response: `status_code` and the value `json()` returns,
modelled as an insertion-ordered JSON object over mock values. -/
structure HttpResponse where
  status_code : Nat
  json : List (String × Mocking.PyVal)

/-- Embeds `get_weather` from `5-mocking/mocking-a-function/main.py`.  The
HTTP dependency `requests.get` is passed explicitly (the tests substitute it
by patching); the second component of the result is the list of arguments
`get` was invoked with, in order — the recorder's view of the run. -/
def get_weather (get : String → HttpResponse) (city : String) :
    Except String (List (String × Mocking.PyVal)) × List String :=
  let url := "http://api.weatherapi.com/v1/" ++ city
  let response := get url
  let result :=
    if response.status_code = 200 then Except.ok response.json
    else Except.error "City not found or API error"
  (result, [url])

/-- The JSON body `{"temp": 20, "condition": "Sunny"}` configured by
`test_get_weather`. -/
def sunnyBody : List (String × Mocking.PyVal) :=
  [("temp", Mocking.PyVal.int 20), ("condition", Mocking.PyVal.str "Sunny")]

end MockFunction

namespace ApiExample

/-- A stored user record of `6-example-testing-an-api/api.py`:
`{"id": user_id, "name": ..., "email": ...}`. -/
structure ApiUser where
  id : Nat
  name : String
  email : String
deriving DecidableEq

/-- The JSON value an endpoint returns: a user record or an error object
`{"error": msg}`. -/
inductive ApiResult
| user (u : ApiUser)
| error (msg : String)
deriving DecidableEq

/-- Key membership in a JSON object (`'name' in data`). -/
def hasKey (d : List (String × String)) (k : String) : Bool :=
  d.any fun p => p.1 = k

/-- Key lookup in a JSON object (`data['name']`); only evaluated by the code
when the key is present, so the default is never observed. -/
def getVal (d : List (String × String)) (k : String) : String :=
  ((d.find? fun p => p.1 = k).map Prod.snd).getD ""

/-- Python dict assignment `users[user_id] = v`: replace in place if the key
exists, else append. -/
def dictInsert (d : List (Nat × ApiUser)) (k : Nat) (v : ApiUser) :
    List (Nat × ApiUser) :=
  if d.any fun p => p.1 = k then d.map fun p => if p.1 = k then (k, v) else p
  else d ++ [(k, v)]

/-- Embeds the `add_user` endpoint of `6-example-testing-an-api/api.py`.
`data` is `request.get_json()` (`none` when the body is missing or not
JSON).  `if not data or 'name' not in data or 'email' not in data` rejects a
missing or empty body (an empty dict is falsy) and bodies lacking either
key with `{"error": "Invalid input"}` and status 400, leaving the
module-level `users` store unchanged; otherwise it stores the record under
`user_id = len(users) + 1` and returns it with status 201. -/
def add_user (users : List (Nat × ApiUser)) (data : Option (List (String × String))) :
    (ApiResult × Nat) × List (Nat × ApiUser) :=
  match data with
  | none => ((ApiResult.error "Invalid input", 400), users)
  | some d =>
      if d.isEmpty || !(hasKey d "name") || !(hasKey d "email") then
        ((ApiResult.error "Invalid input", 400), users)
      else
        let user_id := users.length + 1
        let u : ApiUser := ⟨user_id, getVal d "name", getVal d "email"⟩
        ((ApiResult.user u, 201), dictInsert users user_id u)

end ApiExample

/-- C8: for every numeric temperature `t`, `get_weather t` is `"Hot"` exactly
when `t > 20` and `"Cold"` otherwise; the boundary value 20 is `"Cold"`. -/
theorem get_weather_classifier_spec :
    ∀ t : ℚ, (SimpleFunctions.get_weather t = "Hot" ↔ 20 < t)
      ∧ (SimpleFunctions.get_weather t = "Cold" ↔ ¬ 20 < t)
      ∧ SimpleFunctions.get_weather 20 = "Cold" := by
  intro t
  by_cases h : (20 : ℚ) < t <;>
    simp [SimpleFunctions.get_weather, h]

/-- C4: `divide a b` raises `"Cannot divide by zero"` iff `b = 0`, otherwise
returns the exact quotient; `divide 10 0` raises, `divide 6 3 = 2`,
`divide 5 2 = 2.5`. -/
theorem divide_spec :
    ∀ a b : ℚ,
      (SimpleFunctions.divide a b = Except.error "Cannot divide by zero" ↔ b = 0)
      ∧ (b ≠ 0 → SimpleFunctions.divide a b = Except.ok (a / b))
      ∧ SimpleFunctions.divide 10 0 = Except.error "Cannot divide by zero"
      ∧ SimpleFunctions.divide 6 3 = Except.ok 2
      ∧ SimpleFunctions.divide 5 2 = Except.ok 2.5 := by
  intro a b
  refine ⟨?_, ?_, ?_, ?_, ?_⟩
  · by_cases h : b = 0 <;> simp [SimpleFunctions.divide, h]
  · intro h; simp [SimpleFunctions.divide, h]
  · simp [SimpleFunctions.divide]
  · norm_num [SimpleFunctions.divide]
  · norm_num [SimpleFunctions.divide]

theorem divide_spec_witness :
    (3 : ℚ) ≠ 0 ∧ SimpleFunctions.divide 6 3 = Except.ok (6 / 3) :=
  ⟨by decide, (divide_spec 6 3).2.1 (by decide)⟩

/-- C5: for every integer `n` with `1 ≤ n ≤ 25`, `is_prime n` is true exactly
when `n` is one of 2, 3, 5, 7, 11, 13, 17, 19, 23. -/
theorem is_prime_range_spec :
    ∀ n : Int, 1 ≤ n → n ≤ 25 →
      (Parametrized.is_prime n = true
        ↔ n ∈ ([2, 3, 5, 7, 11, 13, 17, 19, 23] : List Int)) := by
  intro n h1 h2
  interval_cases n <;> decide

theorem is_prime_range_spec_witness :
    (1 : Int) ≤ 23 ∧ (23 : Int) ≤ 25
    ∧ (Parametrized.is_prime 23 = true
        ↔ (23 : Int) ∈ ([2, 3, 5, 7, 11, 13, 17, 19, 23] : List Int)) :=
  ⟨by decide, by decide, is_prime_range_spec 23 (by decide) (by decide)⟩

/-- C6: on a fresh UserManager, adding "john_doe" succeeds with `True`, a
second add of "john_doe" raises "User already exists" for any emails, and
looking up any username not present returns the absent-value marker. -/
theorem user_manager_scenario :
    ∀ e1 e2 : String,
      ((FixturesSetup.UserManager.mk []).add_user "john_doe" e1
        = (Except.ok true, FixturesSetup.UserManager.mk [("john_doe", e1)]))
      ∧ ((((FixturesSetup.UserManager.mk []).add_user "john_doe" e1).2.add_user
            "john_doe" e2).1 = Except.error "User already exists")
      ∧ (∀ (m : FixturesSetup.UserManager) (u : String),
          m.containsUser u = false → m.getItem u = none) := by
  intro e1 e2
  refine ⟨?_, ?_, ?_⟩
  · simp [FixturesSetup.UserManager.add_user, FixturesSetup.UserManager.containsUser]
  · simp [FixturesSetup.UserManager.add_user, FixturesSetup.UserManager.containsUser]
  · intro m u h
    simp only [FixturesSetup.UserManager.containsUser, List.any_eq_false,
      decide_eq_true_eq] at h
    simp only [FixturesSetup.UserManager.getItem, Option.map_eq_none', List.find?_eq_none]
    intro p hp
    simp only [decide_eq_true_eq]
    exact h p hp

theorem user_manager_scenario_witness :
    ((FixturesSetup.UserManager.mk [("a", "b")]).containsUser "nonexistent" = false)
    ∧ ((FixturesSetup.UserManager.mk [("a", "b")]).getItem "nonexistent" = none) :=
  ⟨by decide, (user_manager_scenario "x" "y").2.2 ⟨[("a", "b")]⟩ "nonexistent" (by decide)⟩

/-- C9: when the username is already present, `add_user` raises
"User already exists" and returns the manager completely unchanged — no
entry is added, removed, or overwritten. -/
theorem add_user_atomic :
    ∀ (m : FixturesSetup.UserManager) (u e : String),
      m.containsUser u = true →
      m.add_user u e = (Except.error "User already exists", m) := by
  intro m u e h
  simp [FixturesSetup.UserManager.add_user, h]

theorem add_user_atomic_witness :
    ((FixturesSetup.UserManager.mk [("john_doe", "john@example.com")]).containsUser
        "john_doe" = true)
    ∧ ((FixturesSetup.UserManager.mk [("john_doe", "john@example.com")]).add_user
        "john_doe" "another@example.com"
      = (Except.error "User already exists",
         FixturesSetup.UserManager.mk [("john_doe", "john@example.com")])) :=
  ⟨by decide,
   add_user_atomic ⟨[("john_doe", "john@example.com")]⟩ "john_doe" "another@example.com"
     (by decide)⟩

/-- C1: for every fixture and every test body requesting it, the resolver's
trace contains the teardown event exactly once, placed after the body
finishes, whether the body passes or raises; in particular the `db`
fixture's `database.data.clear()` leaves the database empty after every
test body. -/
theorem fixture_teardown_runs_once :
    ∀ (σ ε : Type) (fx : Fixtures.FixtureProvider σ) (body : σ → Option ε × σ),
      ((Fixtures.runTestWithFixture fx body).2.2
        = [Fixtures.FixtureEvent.setupRun,
           Fixtures.FixtureEvent.bodyFinished (body (fx.setup ())).1.isSome,
           Fixtures.FixtureEvent.teardownRun])
      ∧ ((Fixtures.runTestWithFixture fx body).2.2.count
          Fixtures.FixtureEvent.teardownRun = 1)
      ∧ (∀ b : Fixtures.DataBase → Option String × Fixtures.DataBase,
          ((Fixtures.runTestWithFixture Fixtures.dbFixture b).2.1).data = []) := by
  intro σ ε fx body
  refine ⟨?_, ?_, ?_⟩
  · unfold Fixtures.runTestWithFixture
    rcases h : body (fx.setup ()) with ⟨err, s1⟩
    cases err <;> simp [h]
  · unfold Fixtures.runTestWithFixture
    rcases h : body (fx.setup ()) with ⟨err, s1⟩
    cases err <;> simp [h]
  · intro b
    rcases h : b ⟨([] : List (Nat × String))⟩ with ⟨err, s1⟩
    cases err <;> simp [Fixtures.runTestWithFixture, Fixtures.dbFixture, h]

/-- C2: `assert_called_once_with` succeeds iff the call history has length
exactly one and the single recorded call's positional and named arguments
deep-equal the expected ones; in every other case it fails with an error
carrying both the expected call and the actual history. -/
theorem assert_called_once_with_spec :
    ∀ (r : Mocking.Recorder) (args : List Mocking.PyVal)
      (kwargs : List (String × Mocking.PyVal)),
      (Mocking.assert_called_once_with r args kwargs = Except.ok ()
        ↔ (r.calls.length = 1 ∧ r.calls.head? = some ⟨args, kwargs⟩))
      ∧ (¬ (r.calls.length = 1 ∧ r.calls.head? = some ⟨args, kwargs⟩) →
          Mocking.assert_called_once_with r args kwargs
            = Except.error ⟨⟨args, kwargs⟩, r.calls⟩) := by
  intro r args kwargs
  rcases hc : r.calls with _ | ⟨c, _ | ⟨c2, rest⟩⟩ <;>
    simp only [Mocking.assert_called_once_with, hc]
  · simp
  · by_cases h : c = Mocking.CallRecord.mk args kwargs <;> simp [h]
  · simp

theorem assert_called_once_with_spec_witness :
    (¬ ((Mocking.Recorder.mk []).calls.length = 1
        ∧ (Mocking.Recorder.mk []).calls.head?
            = some (Mocking.CallRecord.mk [] [])))
    ∧ Mocking.assert_called_once_with (Mocking.Recorder.mk []) [] []
        = Except.error ⟨⟨[], []⟩, []⟩ :=
  ⟨by simp, (assert_called_once_with_spec ⟨[]⟩ [] []).2 (by simp)⟩

/-- C3: on a spec-constrained mock, every access — read, call, or
configuration — to an attribute name outside the capability set fails with
UnknownAttribute, while accesses to names inside it succeed; a mock built
with `spec=APIClient` accepts `get_user_data` and rejects every other
attribute name. -/
theorem spec_mock_unknown_attribute :
    ∀ (m : Mocking.SpecMock) (a : String),
      (a ∉ m.spec →
        m.getAttr a = Except.error "UnknownAttribute"
        ∧ (∀ args, m.callAttr a args = Except.error "UnknownAttribute")
        ∧ (∀ v, m.setAttr a v = Except.error "UnknownAttribute"))
      ∧ (a ∈ m.spec →
        (∃ x, m.getAttr a = Except.ok x)
        ∧ (∀ args, ∃ x, m.callAttr a args = Except.ok x)
        ∧ (∀ v, ∃ x, m.setAttr a v = Except.ok x))
      ∧ ((∃ x, Mocking.apiClientMock.getAttr "get_user_data" = Except.ok x)
        ∧ ∀ other : String, other ≠ "get_user_data" →
            Mocking.apiClientMock.getAttr other = Except.error "UnknownAttribute") := by
  intro m a
  refine ⟨?_, ?_, ?_, ?_⟩
  · intro h
    refine ⟨?_, ?_, ?_⟩ <;>
      simp [Mocking.SpecMock.getAttr, Mocking.SpecMock.callAttr,
        Mocking.SpecMock.setAttr, h]
  · intro h
    refine ⟨?_, ?_, ?_⟩ <;>
      simp [Mocking.SpecMock.getAttr, Mocking.SpecMock.callAttr,
        Mocking.SpecMock.setAttr, h]
  · exact ⟨none, by simp [Mocking.SpecMock.getAttr, Mocking.apiClientMock,
      Mocking.apiClientSpec]⟩
  · intro other h
    simp [Mocking.SpecMock.getAttr, Mocking.apiClientMock, Mocking.apiClientSpec, h]

theorem spec_mock_unknown_attribute_witness :
    ("save" ∉ Mocking.apiClientMock.spec)
    ∧ Mocking.apiClientMock.getAttr "save" = Except.error "UnknownAttribute" :=
  ⟨by decide,
   ((spec_mock_unknown_attribute Mocking.apiClientMock "save").1 (by decide)).1⟩

/-- C7: if the HTTP GET stand-in maps the request URL to a response with
status 200 and the sunny JSON body, `get_weather city` returns that body
unchanged and the recorded call list is exactly the one expected URL
`"http://api.weatherapi.com/v1/" ++ city`; a non-200 status makes it raise
instead. -/
theorem get_weather_mock_scenario :
    ∀ (get : String → MockFunction.HttpResponse) (city : String),
      ((get ("http://api.weatherapi.com/v1/" ++ city)).status_code = 200 →
        (get ("http://api.weatherapi.com/v1/" ++ city)).json = MockFunction.sunnyBody →
        MockFunction.get_weather get city
          = (Except.ok MockFunction.sunnyBody,
             ["http://api.weatherapi.com/v1/" ++ city]))
      ∧ ((get ("http://api.weatherapi.com/v1/" ++ city)).status_code ≠ 200 →
        MockFunction.get_weather get city
          = (Except.error "City not found or API error",
             ["http://api.weatherapi.com/v1/" ++ city])) := by
  intro get city
  constructor
  · intro h1 h2
    simp [MockFunction.get_weather, h1, h2]
  · intro h1
    simp [MockFunction.get_weather, h1]

theorem get_weather_mock_scenario_witness :
    (((fun _ : String => MockFunction.HttpResponse.mk 200 MockFunction.sunnyBody)
        ("http://api.weatherapi.com/v1/" ++ "London")).status_code = 200)
    ∧ MockFunction.get_weather
        (fun _ => MockFunction.HttpResponse.mk 200 MockFunction.sunnyBody) "London"
      = (Except.ok MockFunction.sunnyBody, ["http://api.weatherapi.com/v1/London"]) :=
  ⟨rfl,
   (get_weather_mock_scenario
     (fun _ => MockFunction.HttpResponse.mk 200 MockFunction.sunnyBody) "London").1
     rfl rfl⟩

/-- C10: a POST body containing both `name` and `email` stores the record
with id `len(users) + 1` and returns status 201 with exactly that record
(so ids continue from whatever store is already present); a missing body or
one lacking `name` or `email` returns 400 with `{"error": "Invalid input"}`
and leaves the store unchanged.  When the fresh id is not already a key,
the store grows by exactly that one record. -/
theorem api_add_user_spec :
    ∀ (users : List (Nat × ApiExample.ApiUser)) (d : List (String × String)),
      (ApiExample.hasKey d "name" = true → ApiExample.hasKey d "email" = true →
        ApiExample.add_user users (some d)
          = ((ApiExample.ApiResult.user
                ⟨users.length + 1, ApiExample.getVal d "name", ApiExample.getVal d "email"⟩,
              201),
             ApiExample.dictInsert users (users.length + 1)
               ⟨users.length + 1, ApiExample.getVal d "name", ApiExample.getVal d "email"⟩))
      ∧ (∀ u : ApiExample.ApiUser,
          (users.any fun p => p.1 = users.length + 1) = false →
          ApiExample.dictInsert users (users.length + 1) u
            = users ++ [(users.length + 1, u)])
      ∧ (ApiExample.add_user users none
          = ((ApiExample.ApiResult.error "Invalid input", 400), users))
      ∧ ((ApiExample.hasKey d "name" = false ∨ ApiExample.hasKey d "email" = false) →
          ApiExample.add_user users (some d)
            = ((ApiExample.ApiResult.error "Invalid input", 400), users)) := by
  intro users d
  refine ⟨?_, ?_, ?_, ?_⟩
  · intro h1 h2
    have hne : d.isEmpty = false := by
      cases d with
      | nil => simp [ApiExample.hasKey] at h1
      | cons p rest => rfl
    simp [ApiExample.add_user, h1, h2, hne]
  · intro u h
    simp [ApiExample.dictInsert, h]
  · rfl
  · intro h
    rcases h with h | h <;> simp [ApiExample.add_user, h]

theorem api_add_user_spec_witness :
    (ApiExample.hasKey [("name", "John Doe"), ("email", "john@email.com")] "name" = true)
    ∧ (ApiExample.hasKey [("name", "John Doe"), ("email", "john@email.com")] "email" = true)
    ∧ ApiExample.add_user []
        (some [("name", "John Doe"), ("email", "john@email.com")])
      = ((ApiExample.ApiResult.user ⟨1, "John Doe", "john@email.com"⟩, 201),
         [(1, ⟨1, "John Doe", "john@email.com"⟩)]) :=
  ⟨by decide, by decide,
   (api_add_user_spec [] [("name", "John Doe"), ("email", "john@email.com")]).1
     (by decide) (by decide)⟩
